import Mathlib

/-!
Shallow embedding of `src/components/ProductDetail.tsx`: a product-detail
view component with state (product, loading, error, isWishlisted), a
one-shot fetch effect, three event handlers (add-to-cart, wishlist toggle,
share), and a four-way conditional render.

Numeric prices are embedded as rationals; the JavaScript
`Number.prototype.toFixed(0)` display rounding is embedded as
round-half-up (nearest integer, ties toward the larger integer, per the
ECMAScript specification of toFixed).  JavaScript string truthiness
(`if (error)`) is embedded explicitly: `null` and the empty string are
falsy.
-/

namespace ProductDetail

/-- The `rating` sub-object of the `Product` interface (lines 16-19). -/
structure Rating where
  rate : ℚ
  count : ℕ
  deriving DecidableEq, Repr

/-- The `Product` interface (lines 9-20 of the source). -/
structure Product where
  id : ℕ
  title : String
  price : ℚ
  description : String
  category : String
  image : String
  rating : Rating
  deriving DecidableEq, Repr

/-- A toast payload as passed to `toast({...})`: title, description and an
optional variant (the source only ever passes variant `"destructive"` or
omits it). -/
structure Toast where
  title : String
  description : String
  variant : Option String := none
  deriving DecidableEq, Repr

/-- Whether a toast is a destructive notification. -/
def Toast.isDestructive (t : Toast) : Bool :=
  t.variant = some "destructive"

/-- The component state: the four `useState` hooks of `ProductDetail`
(lines 23-25 and 59). -/
structure ComponentState where
  product : Option Product
  loading : Bool
  error : Option String
  isWishlisted : Bool
  deriving DecidableEq, Repr

/-- The initial state: `useState<Product | null>(null)`, `useState(true)`,
`useState<string | null>(null)`, `useState(false)`. -/
def initialState : ComponentState :=
  { product := none, loading := true, error := none, isWishlisted := false }

/-- A JavaScript thrown value as discriminated by the catch clause
`err instanceof Error ? err.message : ...` (line 44): either an `Error`
object carrying a message string, or any other thrown value. -/
inductive Thrown where
  | jsError (message : String)
  | nonError
  deriving DecidableEq, Repr

/-- Line 44: `err instanceof Error ? err.message : 'Failed to fetch
product'`. -/
def thrownMessage : Thrown → String
  | .jsError m => m
  | .nonError => "Failed to fetch product"

/-- Outcome of the `response.json()` call: a decoded `Product`, or a
thrown decode fault (malformed body). -/
inductive BodyResult where
  | decoded (data : Product)
  | failed (t : Thrown)
  deriving DecidableEq, Repr

/-- Outcome of the awaited `fetch` call: the promise rejects with a thrown
value (network unreachable), or a response with a numeric status arrives,
whose body decoding may in turn fault. -/
inductive FetchOutcome where
  | networkFault (t : Thrown)
  | got (status : ℕ) (body : BodyResult)
  deriving DecidableEq, Repr

/-- `Response.ok`: status in the inclusive range 200-299. -/
def responseOk (status : ℕ) : Bool :=
  200 ≤ status && status ≤ 299

/-- The catch clause of `fetchProduct` (lines 43-50): derive the error
message, set the `error` state, emit one destructive toast; the `finally`
clause (line 52) sets `loading` to false. -/
def fetchCatch (s : ComponentState) (t : Thrown) : ComponentState × List Toast :=
  let errorMessage := thrownMessage t
  ({ s with error := some errorMessage, loading := false },
   [{ title := "Error", description := errorMessage, variant := some "destructive" }])

/-- The `fetchProduct` async function (lines 29-54), as a function from
the fetch outcome to the settled component state and the emitted toasts:
sets `loading := true` and `error := null`, then on a non-ok status throws
`Error` with message `HTTP error! status: <status>` before touching the
body; on a decode fault or network fault reaches the catch clause; on
success stores the decoded record; in every branch `finally` sets
`loading := false`. -/
def fetchProduct (s : ComponentState) (out : FetchOutcome) : ComponentState × List Toast :=
  let s1 : ComponentState := { s with loading := true, error := none }
  match out with
  | .networkFault t => fetchCatch s1 t
  | .got status body =>
    if !responseOk status then
      fetchCatch s1 (.jsError ("HTTP error! status: " ++ toString status))
    else
      match body with
      | .failed t => fetchCatch s1 t
      | .decoded data => ({ s1 with product := some data, loading := false }, [])

/-- JavaScript template-literal interpolation of `product?.title`: when
`product` is `null` the optional chain yields `undefined`, which a
template literal renders as the string `undefined`. -/
def jsOptTitle : Option Product → String
  | some p => p.title
  | none => "undefined"

/-- `handleAddToCart` (lines 61-66): emits one toast and performs no state
update. -/
def handleAddToCart (s : ComponentState) : ComponentState × List Toast :=
  (s,
   [{ title := "Added to Cart",
      description := jsOptTitle s.product ++ " has been added to your cart!" }])

/-- `handleWishlist` (lines 68-74): flips `isWishlisted` and emits one
toast whose texts are chosen from the pre-toggle value of the flag. -/
def handleWishlist (s : ComponentState) : ComponentState × List Toast :=
  ({ s with isWishlisted := !s.isWishlisted },
   [{ title := if s.isWishlisted then "Removed from Wishlist" else "Added to Wishlist",
      description := jsOptTitle s.product ++ " has been "
        ++ (if s.isWishlisted then "removed from" else "added to") ++ " your wishlist!" }])

/-- `handleShare` (lines 76-109), as a function of whether
`navigator.share` is present and whether the attempted operation (native
share, or the clipboard write in the fallback) succeeds.  Returns the
component state, the emitted toasts, and the console log entries.  The
native-share failure path only logs (line 91); the clipboard-fallback
failure path emits one destructive toast (lines 102-106).  No branch
updates any state. -/
def handleShare (s : ComponentState) (hasNativeShare : Bool) (opSucceeds : Bool) :
    ComponentState × List Toast × List String :=
  if hasNativeShare then
    if opSucceeds then
      (s, [{ title := "Shared Successfully", description := "Product shared successfully!" }], [])
    else
      (s, [], ["Error sharing:"])
  else
    if opSucceeds then
      (s, [{ title := "Link Copied", description := "Product link copied to clipboard!" }], [])
    else
      (s, [{ title := "Share Failed", description := "Unable to share or copy link",
             variant := some "destructive" }], [])

/-- JavaScript truthiness of the `error` state (`string | null`): `null`
is falsy and so is the empty string. -/
def errTruthy : Option String → Bool
  | none => false
  | some m => !(m = "")

/-- `Number.prototype.toFixed(0)` on an idealised (rational) value: the
integer n closest to the value, the larger n on a tie, per the ECMAScript
specification of toFixed. -/
def jsToFixed0 (q : ℚ) : ℤ :=
  ⌊q + 1 / 2⌋

/-- The primary price span (line 195): `₹{(product.price * 83).toFixed(0)}`. -/
def primaryPriceText (p : Product) : String :=
  "₹" ++ toString (jsToFixed0 (p.price * 83))

/-- The strike-through price span (line 198):
`₹{(product.price * 83 * 1.2).toFixed(0)}`. -/
def strikePriceText (p : Product) : String :=
  "₹" ++ toString (jsToFixed0 (p.price * 83 * 1.2))

/-- The discount badge (lines 200-202): the constant text `17% OFF`. -/
def discountBadgeText (_ : Product) : String :=
  "17% OFF"

/-- The wishlist button glyph (line 229): `isWishlisted ? ♥ : ♡`. -/
def wishlistGlyph (s : ComponentState) : Char :=
  if s.isWishlisted then '♥' else '♡'

/-- The review-count line (lines 178-180): `({product.rating.count} reviews)`. -/
def ratingCountText (p : Product) : String :=
  "(" ++ toString p.rating.count ++ " reviews)"

/-- The rating score span (line 177): `{product.rating.rate}` rendered as
text. -/
def ratingRateText (p : Product) : String :=
  toString p.rating.rate

/-- The four mutually exclusive render results of the component: the
loading skeleton (lines 111-136), the error panel (lines 138-154) showing
the message, `null` (line 157), or the success panel (lines 160-253). -/
inductive View where
  | loadingView
  | errorView (message : String)
  | successView (p : Product)
  | nothingView
  deriving DecidableEq, Repr

/-- The render function of `ProductDetail` (lines 111-158): `if (loading)`
returns the skeleton; `if (error)` (JavaScript truthiness: a non-null,
non-empty string) returns the error panel; `if (!product)` returns null;
otherwise the success panel. -/
def render (s : ComponentState) : View :=
  if s.loading then View.loadingView
  else if errTruthy s.error then View.errorView (s.error.getD "")
  else
    match s.product with
    | none => View.nothingView
    | some p => View.successView p

/-- The dynamic (interpolated) texts of the success panel, in source
order: category badge, title, primary price, strike-through price,
discount badge, rating score, review count, description (lines 160-253). -/
def successViewTexts (p : Product) : List String :=
  [p.category, p.title, primaryPriceText p, strikePriceText p, discountBadgeText p,
   ratingRateText p, ratingCountText p, p.description]

/-- Modelled from the spec: the display convention for a monetary amount
(`price display is a pure function of price`, with the fixed conversion to
the displayed currency): multiply by 83, round to zero decimal places per
toFixed, prefix with the rupee symbol. -/
def specDisplayConvention (amount : ℚ) : String :=
  "₹" ++ toString (jsToFixed0 (amount * 83))

/-- The success-panel texts with the two price-derived texts abstracted as
parameters: the template itself does not read `price`. -/
def successViewTextsTemplate (p : Product) (priceT strikeT : String) : List String :=
  [p.category, p.title, priceT, strikeT, discountBadgeText p,
   ratingRateText p, ratingCountText p, p.description]

/-- The sample product of the spec scenario (§8). -/
def sampleProduct : Product :=
  { id := 1, title := "Fjallraven Backpack", price := 109.95,
    description := "A backpack", category := "clothing",
    image := "https://example.invalid/img.png",
    rating := { rate := 3.9, count := 120 } }

/-- A settled success state holding the sample product: what the state
machine reaches when the fetch resolves with the sample body. -/
def successState : ComponentState :=
  { product := some sampleProduct, loading := false, error := none, isWishlisted := false }

end ProductDetail

namespace ProductDetail

/-- C1: for every successful fetch with a well-formed body, the Success
view's price display is a pure function of the price field of the product,
and the strike-through value shown equals price × 1.2 rendered per the
display convention (conversion by 83, toFixed(0) rounding, rupee prefix). -/
theorem c1_strike_through_price (p q : Product) (hpq : p.price = q.price) :
    strikePriceText p = specDisplayConvention (p.price * 1.2) ∧
    strikePriceText p = strikePriceText q := by
  constructor
  · rw [strikePriceText, specDisplayConvention,
      show p.price * 83 * 1.2 = p.price * 1.2 * 83 by ring]
  · rw [strikePriceText, strikePriceText, hpq]

/-- Witness for C1 at the sample product. -/
theorem c1_strike_through_price_check :
    sampleProduct.price = sampleProduct.price ∧
    strikePriceText sampleProduct = specDisplayConvention (sampleProduct.price * 1.2) :=
  ⟨rfl, (c1_strike_through_price sampleProduct sampleProduct rfl).1⟩

/-- C2: every fetch response with a non-2xx status makes the component
render the Error view, whose message contains the numeric status code, and
exactly one destructive notification is emitted. -/
theorem c2_non2xx_error_view (s : ComponentState) (status : ℕ) (body : BodyResult)
    (h : responseOk status = false) :
    render (fetchProduct s (.got status body)).1
      = View.errorView ("HTTP error! status: " ++ toString status) ∧
    (∃ pre post,
      "HTTP error! status: " ++ toString status = pre ++ (toString status ++ post)) ∧
    (fetchProduct s (.got status body)).2
      = [{ title := "Error", description := "HTTP error! status: " ++ toString status,
           variant := some "destructive" }] ∧
    ((fetchProduct s (.got status body)).2.filter Toast.isDestructive).length = 1 := by
  have hne : ("HTTP error! status: " ++ toString status) ≠ "" := by
    intro hEq
    have hlen := congrArg String.length hEq
    rw [String.length_append] at hlen
    have h20 : ("HTTP error! status: ").length = 20 := rfl
    rw [h20] at hlen
    simp at hlen
  refine ⟨?_, ⟨"HTTP error! status: ", "", by rw [String.append_empty]⟩, ?_, ?_⟩
  · simp [fetchProduct, h, fetchCatch, thrownMessage, render, errTruthy, hne]
  · simp [fetchProduct, h, fetchCatch, thrownMessage]
  · simp [fetchProduct, h, fetchCatch, thrownMessage, Toast.isDestructive]

/-- Witness for C2 at status 404. -/
theorem c2_non2xx_error_view_check :
    responseOk 404 = false ∧
    render (fetchProduct initialState (.got 404 (.decoded sampleProduct))).1
      = View.errorView ("HTTP error! status: " ++ toString 404) :=
  ⟨rfl, (c2_non2xx_error_view initialState 404 (.decoded sampleProduct) rfl).1⟩

/-- C3 counterexample: after a network fault that throws an Error whose
message is the empty string (reachable in the component lifetime:
`fetchProduct` applied to the initial state), the error state is non-null
and loading is over, yet the component renders nothing rather than the
Error view, because the source tests `if (error)` by JavaScript
truthiness and the empty string is falsy. -/
theorem c3_error_precedence_cex :
    (fetchProduct initialState (.networkFault (.jsError ""))).1.error = some "" ∧
    (fetchProduct initialState (.networkFault (.jsError ""))).1.loading = false ∧
    (fetchProduct initialState (.networkFault (.jsError ""))).1.product = none ∧
    render (fetchProduct initialState (.networkFault (.jsError ""))).1 = View.nothingView :=
  ⟨rfl, rfl, rfl, rfl⟩

/-- C3 (amended): exactly one of the three views or nothing is rendered,
selected by loading (highest precedence), then a truthy (non-empty) error,
then presence of the product; when the product is null, the error is null
or empty, and loading is over, the component renders nothing. -/
theorem c3_render_precedence (s : ComponentState) :
    (s.loading = true → render s = View.loadingView) ∧
    (s.loading = false → ∀ m, s.error = some m → m ≠ "" → render s = View.errorView m) ∧
    (s.loading = false → (s.error = none ∨ s.error = some "") →
      ∀ p, s.product = some p → render s = View.successView p) ∧
    (s.loading = false → (s.error = none ∨ s.error = some "") →
      s.product = none → render s = View.nothingView) := by
  refine ⟨?_, ?_, ?_, ?_⟩
  · intro hl
    simp [render, hl]
  · intro hl m hm hne
    simp [render, hl, errTruthy, hm, hne]
  · intro hl he p hp
    rcases he with he | he <;> simp [render, hl, errTruthy, he, hp]
  · intro hl he hp
    rcases he with he | he <;> simp [render, hl, errTruthy, he, hp]

/-- Witness for the amended C3 on concrete states of each branch. -/
theorem c3_render_precedence_check :
    render initialState = View.loadingView ∧
    render { product := none, loading := false, error := some "HTTP error! status: 404",
             isWishlisted := false } = View.errorView "HTTP error! status: 404" ∧
    render { product := none, loading := false, error := some "",
             isWishlisted := false } = View.nothingView :=
  ⟨(c3_render_precedence initialState).1 rfl,
   (c3_render_precedence _).2.1 rfl _ rfl (by decide),
   (c3_render_precedence _).2.2.2 rfl (Or.inr rfl) rfl⟩

/-- C4: the share operation is asymmetric in failure handling.  With the
native capability present, a failed invocation only writes a console log:
no toast is emitted and the state is unchanged.  Without the capability, a
failed clipboard write emits exactly one destructive toast, no log, and
the state is unchanged. -/
theorem c4_share_failure_asymmetry (s : ComponentState) :
    ((handleShare s true false).1 = s ∧
     (handleShare s true false).2.1 = [] ∧
     (handleShare s true false).2.2 = ["Error sharing:"]) ∧
    ((handleShare s false false).1 = s ∧
     (handleShare s false false).2.1 =
       [{ title := "Share Failed", description := "Unable to share or copy link",
          variant := some "destructive" }] ∧
     ((handleShare s false false).2.1.filter Toast.isDestructive).length = 1 ∧
     (handleShare s false false).2.2 = []) :=
  ⟨⟨rfl, rfl, rfl⟩, ⟨rfl, rfl, rfl, rfl⟩⟩

/-- C5: for every transport-level fault during fetch or decode, the error
state is set to the message that the thrown fault carries, and to the
generic fallback message when the fault carries none; and in all outcomes
of the fetch, loading ends up false. -/
theorem c5_transport_fault_messages (s : ComponentState) :
    (∀ m, (fetchProduct s (.networkFault (.jsError m))).1.error = some m) ∧
    (fetchProduct s (.networkFault .nonError)).1.error = some "Failed to fetch product" ∧
    (∀ status, responseOk status = true →
      (∀ m, (fetchProduct s (.got status (.failed (.jsError m)))).1.error = some m) ∧
      (fetchProduct s (.got status (.failed .nonError))).1.error
        = some "Failed to fetch product") ∧
    (∀ out, (fetchProduct s out).1.loading = false) := by
  refine ⟨fun m => rfl, rfl, ?_, ?_⟩
  · intro status h
    constructor
    · intro m
      simp [fetchProduct, h, fetchCatch, thrownMessage]
    · simp [fetchProduct, h, fetchCatch, thrownMessage]
  · intro out
    cases out with
    | networkFault t => rfl
    | got status body =>
      by_cases h : responseOk status
      · cases body with
        | decoded d => simp [fetchProduct, h]
        | failed t => simp [fetchProduct, h, fetchCatch]
      · simp [fetchProduct, h, fetchCatch]

/-- Witness for C5 at status 200 and concrete faults. -/
theorem c5_transport_fault_messages_check :
    responseOk 200 = true ∧
    (fetchProduct initialState (.got 200 (.failed .nonError))).1.error
      = some "Failed to fetch product" ∧
    (fetchProduct initialState (.networkFault (.jsError "boom"))).1.error = some "boom" ∧
    (fetchProduct initialState (.got 200 (.decoded sampleProduct))).1.loading = false :=
  ⟨rfl, ((c5_transport_fault_messages initialState).2.2.1 200 rfl).2,
   (c5_transport_fault_messages initialState).1 "boom",
   (c5_transport_fault_messages initialState).2.2.2 (.got 200 (.decoded sampleProduct))⟩

/-- C6: toggling the wishlist twice from any state restores the whole
component state (the toggle is an involution); one toggle flips the flag;
the emitted toast text reflects the resulting state (added when the
resulting flag is true, removed when it is false); and two toggles from
the initial state return the flag to false and the glyph to its original
form. -/
theorem c6_wishlist_toggle_involution (s : ComponentState) :
    (handleWishlist (handleWishlist s).1).1 = s ∧
    (handleWishlist s).1.isWishlisted = !s.isWishlisted ∧
    (handleWishlist s).2 =
      [{ title := if (handleWishlist s).1.isWishlisted
            then "Added to Wishlist" else "Removed from Wishlist",
         description := jsOptTitle s.product ++ " has been "
           ++ (if (handleWishlist s).1.isWishlisted then "added to" else "removed from")
           ++ " your wishlist!" }] ∧
    (handleWishlist (handleWishlist initialState).1).1.isWishlisted = false ∧
    wishlistGlyph (handleWishlist (handleWishlist initialState).1).1 = '♡' := by
  obtain ⟨p, l, e, w⟩ := s
  refine ⟨?_, rfl, ?_, rfl, rfl⟩
  · simp [handleWishlist]
  · cases w <;> simp [handleWishlist]

/-- C7: add-to-cart mutates none of the four state fields and only emits
one notification whose description interpolates the product title. -/
theorem c7_add_to_cart_frame (s : ComponentState) :
    (handleAddToCart s).1.product = s.product ∧
    (handleAddToCart s).1.loading = s.loading ∧
    (handleAddToCart s).1.error = s.error ∧
    (handleAddToCart s).1.isWishlisted = s.isWishlisted ∧
    (handleAddToCart s).2 =
      [{ title := "Added to Cart",
         description := jsOptTitle s.product ++ " has been added to your cart!" }] :=
  ⟨rfl, rfl, rfl, rfl, rfl⟩

/-- C8: the primary displayed price is the source price multiplied by the
fixed conversion factor 83, rounded to zero decimal places, prefixed with
the rupee symbol; the raw source price reaches the rendered success-view
texts only through the two converted price displays (the text template is
invariant under changing the price field). -/
theorem c8_price_conversion_display (p : Product) (q : ℚ) :
    primaryPriceText p = specDisplayConvention p.price ∧
    specDisplayConvention p.price = "₹" ++ toString (jsToFixed0 (p.price * 83)) ∧
    successViewTexts p
      = successViewTextsTemplate p (specDisplayConvention p.price)
          (specDisplayConvention (p.price * 1.2)) ∧
    successViewTextsTemplate { p with price := q } (specDisplayConvention p.price)
        (specDisplayConvention (p.price * 1.2))
      = successViewTextsTemplate p (specDisplayConvention p.price)
          (specDisplayConvention (p.price * 1.2)) := by
  refine ⟨rfl, rfl, ?_, rfl⟩
  simp only [successViewTexts, successViewTextsTemplate,
    (c1_strike_through_price p p rfl).1]
  rfl

/-- C9: when the render is the Success view the product is non-null, so
the notifications of the action handlers interpolate the actual product
title and the optional chain never yields the undefined placeholder. -/
theorem c9_handlers_defined_title (s : ComponentState) (p : Product)
    (h : render s = View.successView p) :
    s.product = some p ∧
    jsOptTitle s.product = p.title ∧
    (handleAddToCart s).2 =
      [{ title := "Added to Cart",
         description := p.title ++ " has been added to your cart!" }] ∧
    (handleWishlist s).2 =
      [{ title := if s.isWishlisted then "Removed from Wishlist" else "Added to Wishlist",
         description := p.title ++ " has been "
           ++ (if s.isWishlisted then "removed from" else "added to")
           ++ " your wishlist!" }] := by
  have hp : s.product = some p := by
    by_cases hl : s.loading
    · simp [render, hl] at h
    · by_cases he : errTruthy s.error
      · simp [render, hl, he] at h
      · cases hpc : s.product with
        | none => simp [render, hl, he, hpc] at h
        | some pc =>
          simp only [render, hl, he, hpc, if_false, Bool.false_eq_true] at h
          simp only [View.successView.injEq] at h
          rw [h]
  refine ⟨hp, ?_, ?_, ?_⟩
  · simp [jsOptTitle, hp]
  · simp [handleAddToCart, jsOptTitle, hp]
  · simp [handleWishlist, jsOptTitle, hp]

/-- Witness for C9 at a concrete success state holding the sample
product. -/
theorem c9_handlers_defined_title_check :
    render successState = View.successView sampleProduct ∧
    (handleAddToCart successState).2 =
      [{ title := "Added to Cart",
         description := sampleProduct.title ++ " has been added to your cart!" }] :=
  ⟨rfl, (c9_handlers_defined_title successState sampleProduct rfl).2.2.1⟩

/-- C10: the discount badge shows the constant text 17% OFF for every
product, independent of the price, while the exact discount implied by the
1.2 strike-through markup is 1/6 (16.67% after toFixed-style rounding to
two decimal places of the percentage), which is not 17%. -/
theorem c10_discount_badge_constant (p q : Product) :
    discountBadgeText p = "17% OFF" ∧
    discountBadgeText p = discountBadgeText q ∧
    (1 : ℚ) - 1 / 1.2 = 1 / 6 ∧
    jsToFixed0 (((1 : ℚ) - 1 / 1.2) * 10000) = 1667 ∧
    (1 : ℚ) - 1 / 1.2 ≠ 17 / 100 := by
  refine ⟨rfl, rfl, by norm_num, ?_, by norm_num⟩
  rw [jsToFixed0, Int.floor_eq_iff]
  norm_num

end ProductDetail
